import Mathlib

/-!
Shallow embedding of `supabase/functions/find-optimal-route/index.ts`, the
route-candidate generation and selection engine of the repository, together
with proofs about its behaviour.

Modelling conventions:
* JS numbers are modelled as `ℚ`; `Math.ceil` is `jsCeil`.
* A JS expression `x || fallback` on a numeric field is `jsOr` (a numeric
  value is falsy exactly when it is `0`; `NaN` is not modelled).
* Every provider response consumed by `findOptimalRoute` is a field of
  `ProviderEnv`: the adapters (`searchTmapRoute`, `getKakaoDirectionsPrecise`,
  `searchNearbyStations`, `batchTaxiEtaToDestinations`,
  `batchTaxiEtaFromOrigins`) return `null`/`[]` on any failure, so a failed or
  malformed call is the corresponding `none`/`[]` value.  In particular a
  batch-ETA payload that is `null` or lacks a `routes` array is
  `batchEtaO/D = none`, and a directions payload whose first route summary is
  missing, or whose `duration`/`distance` fields are `undefined`, is a `none`
  summary.
* `calculateDistance` (haversine over trigonometric functions) is real-valued
  and not executable; its result is passed to the engine as the explicit
  `distanceM` argument.
* JS `Array.prototype.sort` is a stable sort; a stable sort for a total
  transitive comparator is uniquely determined, and is modelled by
  `List.insertionSort` (which Mathlib proves stable).
* `new Date().toISOString()` (the clock read used when the request carries no
  `departureTime`) is the explicit `now` argument; timestamps are rational
  milliseconds since the epoch.
-/

namespace BeforeYouTake

/-- `Math.ceil` on the rational model of JS numbers. -/
def jsCeil (q : ℚ) : ℚ := (⌈q⌉ : ℤ)

/-- JS `x || fallback` for an optional numeric field: the fallback is taken
when the field is absent or holds the falsy number `0`. -/
def jsOr (x : Option ℚ) (fallback : ℚ) : ℚ :=
  match x with
  | some v => if v = 0 then fallback else v
  | none => fallback

/-- `WALK_SPEED_M_PER_MIN` from the source. -/
def WALK_SPEED_M_PER_MIN : ℚ := 70

/-- `TAXI_PICKUP_BUFFER_MIN` from the source. -/
def TAXI_PICKUP_BUFFER_MIN : ℚ := 2

/-- `DROPOFF_TO_PLATFORM_BUFFER_MIN` from the source. -/
def DROPOFF_TO_PLATFORM_BUFFER_MIN : ℚ := 1

/-- `SUBWAY_TRANSFER_WALK_MIN` from the source. -/
def SUBWAY_TRANSFER_WALK_MIN : ℚ := 3

/-- `BUS_TRANSFER_WALK_MIN` from the source. -/
def BUS_TRANSFER_WALK_MIN : ℚ := 1

/-- `POI_RADIUS_MIN` from the source. -/
def POI_RADIUS_MIN : ℚ := 800

/-- `POI_RADIUS_MAX` from the source. -/
def POI_RADIUS_MAX : ℚ := 3000

/-- `TAXI_ROI_WINDOW_PRIMARY = [6, 9]` from the source. -/
def TAXI_ROI_WINDOW_PRIMARY : ℚ × ℚ := (6, 9)

/-- `TAXI_ROI_WINDOW_EXPAND = [5, 12]` from the source. -/
def TAXI_ROI_WINDOW_EXPAND : ℚ × ℚ := (5, 12)

/-- `MAX_STATION_CANDIDATES` from the source. -/
def MAX_STATION_CANDIDATES : Nat := 15

/-- An endpoint of the request (`{ lat, lng, name }`). -/
structure GeoPoint where
  lat : ℚ
  lng : ℚ
  name : String
deriving DecidableEq

/-- The `RouteRequest` consumed by `findOptimalRoute`, after the destructuring
defaults `requireTaxi = false` and `taxiMaxSegments = 1` have been applied.
`departureTime` is the optional request departure time (ms since epoch). -/
structure RouteRequest where
  origin : GeoPoint
  destination : GeoPoint
  maxTimeMin : ℚ
  maxWalkMin : ℚ
  requireTaxi : Bool
  taxiMaxSegments : ℚ
  departureTime : Option ℚ
deriving DecidableEq

/-- One leg of a TMAP transit itinerary, with the fields the engine reads.
`passStopCount` is `passStopList?.stations?.length`. -/
structure TmapLeg where
  mode : String
  sectionTime : Option ℚ
  distance : Option ℚ
  startName : Option String
  endName : Option String
  route : Option String
  routeColor : Option String
  service : Option ℚ
  passStopCount : Option Nat
deriving DecidableEq

/-- A TMAP transit itinerary with the fields the engine reads.
`totalFare` is `fare?.regular?.totalFare`. -/
structure Itinerary where
  totalTime : ℚ
  totalFare : Option ℚ
  pathType : Option ℚ
  legs : Option (List TmapLeg)
deriving DecidableEq

/-- The summary of a Kakao directions response (`routes[0].summary`).
A payload whose summary is missing or whose `duration`/`distance` are
`undefined` is modelled as an absent summary (`none` in `ProviderEnv`):
the taxi-only branch skips it explicitly, and in the mixed branches an
`undefined` duration poisons every derived number with `NaN` so that the
feasibility comparison fails and no candidate is produced either. -/
structure DirectionsSummary where
  duration : ℚ
  distance : ℚ
  taxiFare : Option ℚ
  tollFare : Option ℚ
deriving DecidableEq

/-- A nearby station returned by the POI provider. -/
structure Station where
  stationID : String
  stationName : String
  x : ℚ
  y : ℚ
  type : String
deriving DecidableEq

/-- A `TransitStep` of the response (one itinerary leg echoed back).
`fromName`/`toName` stand for the source's `from`/`to` (a Lean keyword). -/
structure TransitStep where
  mode : String
  fromName : String
  toName : String
  duration : ℚ
  distance : Option ℚ
  route : Option String
  routeColor : Option String
  service : Option ℚ
  stationCount : Nat
deriving DecidableEq

/-- The `details` payload of a `RouteLeg`, a variant keyed by the leg type.
`taxiInfoFull` is the `{ distance, duration, taxiFare, tollFare }` payload of
the taxi-only leg; `taxiInfo` the `{ taxiFare, tollFare }` payload of a mixed
taxi leg; `transitInfoFull` carries `pathType` (transit-only candidate) while
`transitInfo` (mixed candidates) does not. -/
inductive LegDetails where
  | walkInfo (distance : ℚ)
  | taxiInfoFull (distance duration taxiFare tollFare : ℚ)
  | taxiInfo (taxiFare tollFare : ℚ)
  | transitInfoFull (totalWalkM : ℚ) (busCount subwayCount : Nat) (pathType : Option ℚ)
      (steps : List TransitStep)
  | transitInfo (totalWalkM : ℚ) (busCount subwayCount : Nat) (steps : List TransitStep)
deriving DecidableEq

/-- The `type` tag of a `RouteLeg`. -/
inductive LegType where
  | transit
  | taxi
  | walk
deriving DecidableEq

/-- One atomic movement of a candidate. `fromName`/`toName` stand for the
source's `from`/`to`; `arrivalTime` is filled in by `addArrivalTimes`. -/
structure RouteLeg where
  type : LegType
  fromName : String
  toName : String
  durationMin : ℚ
  costKrw : ℚ
  details : LegDetails
  arrivalTime : Option ℚ := none
deriving DecidableEq

/-- The `type` tag of a `RouteCandidate`. -/
inductive CandType where
  | transitOnly
  | taxiOnly
  | taxiTransit
  | transitTaxi
  | walkOnly
deriving DecidableEq

/-- The candidate id, modelled structurally rather than as the interpolated
string of the source.  `transit tag` is `transit-${pathType || length}` (the
tag is the itinerary's path type, or the current candidate count when the
path type is absent or `0`); the mixed ids carry the station id and the raw
optional path type, as in `taxi-transit-${stationID}-${pathType}`. -/
inductive CandidateId where
  | walkOnly
  | transit (tag : ℚ)
  | taxiOnly
  | taxiTransit (stationID : String) (pathType : Option ℚ)
  | transitTaxi (stationID : String) (pathType : Option ℚ)
deriving DecidableEq

/-- A `RouteCandidate` of the source. -/
structure RouteCandidate where
  id : CandidateId
  type : CandType
  totalTimeMin : ℚ
  totalCostKrw : ℚ
  walkTimeMin : ℚ
  hasTaxi : Bool
  legs : List RouteLeg
  slackMin : ℚ
  isFeasible : Bool
  departureTime : Option ℚ := none
  arrivalTime : Option ℚ := none
deriving DecidableEq

/-- The `constraints` block of the response. -/
structure Constraints where
  maxTimeMin : ℚ
  maxWalkMin : ℚ
deriving DecidableEq

/-- The `RouteResponse` of the source (without the additive debug block). -/
structure RouteResponse where
  success : Bool
  routes : List RouteCandidate
  count : Nat
  noFeasibleRoute : Bool
  minPossibleTimeMin : Option ℚ
  minPossibleWalkMin : Option ℚ
  constraints : Constraints
deriving DecidableEq

/-- One fixed assignment of provider responses for a request.  Each field is
what the corresponding adapter call returns (`none` on any transport error,
non-success status or malformed payload, as the adapters never throw):
`tmapMain` is `tmapData?.metaData?.plan?.itineraries`; `kakaoMain` is
`kakaoTaxiData?.routes?.[0]?.summary`; `batchEtaO`/`batchEtaD` are the batch
ETA `routes` arrays (each entry the optional truthy `summary.duration` in
seconds); the four functions give the per-station precise directions and
transit itineraries used by the mixed branches. -/
structure ProviderEnv where
  tmapMain : Option (List Itinerary)
  kakaoMain : Option DirectionsSummary
  stationsNearO : List Station
  stationsNearD : List Station
  batchEtaO : Option (List (Option ℚ))
  batchEtaD : Option (List (Option ℚ))
  taxiToStation : Station → Option DirectionsSummary
  transitFromStation : Station → Option (List Itinerary)
  transitToStation : Station → Option (List Itinerary)
  taxiFromStation : Station → Option DirectionsSummary

/-- `estimateWalkTimeMin` from the source. -/
def estimateWalkTimeMin (totalWalkM : ℚ) (subwayTransfers busTransfers : Nat) : ℚ :=
  jsCeil (totalWalkM / WALK_SPEED_M_PER_MIN)
    + (subwayTransfers : ℚ) * SUBWAY_TRANSFER_WALK_MIN
    + (busTransfers : ℚ) * BUS_TRANSFER_WALK_MIN

/-- `computePoiRadius` from the source (`1.2 = 6/5`). -/
def computePoiRadius (maxWalkMin : ℚ) : ℚ :=
  max POI_RADIUS_MIN (min (maxWalkMin * WALK_SPEED_M_PER_MIN * (6 / 5)) POI_RADIUS_MAX)

/-- `screenStationsByEta` from the source: positional pairing of stations with
ETA results, keeping a station when its ETA result has a truthy
`summary.duration` whose minute value lies inside the window. -/
def screenStationsByEta (stations : List Station) (etaResults : List (Option ℚ))
    (window : ℚ × ℚ) : List Station :=
  match stations, etaResults with
  | station :: ss, eta :: es =>
    let rest := screenStationsByEta ss es window
    match eta with
    | some d =>
      if d ≠ 0 then
        if window.1 ≤ d / 60 ∧ d / 60 ≤ window.2 then station :: rest else rest
      else rest
    | none => rest
  | _, _ => []

/-- The screening step of `findOptimalRoute` for one side: when the batch ETA
call yielded a `routes` array, screen with the primary window and, when fewer
than 5 stations survive, re-screen the same station list with the expanded
window (replacing the primary result); when the batch ETA call failed, the
station list is used unscreened. -/
def screenWithFallback (stations : List Station) (batchEta : Option (List (Option ℚ))) :
    List Station :=
  match batchEta with
  | none => stations
  | some etas =>
    let primary := screenStationsByEta stations etas TAXI_ROI_WINDOW_PRIMARY
    if primary.length < 5 then screenStationsByEta stations etas TAXI_ROI_WINDOW_EXPAND
    else primary

/-- Sum of `leg.distance || 0` over the WALK legs of an itinerary leg list. -/
def walkDistanceSum : List TmapLeg → ℚ
  | [] => 0
  | l :: ls => (if l.mode = "WALK" then jsOr l.distance 0 else 0) + walkDistanceSum ls

/-- Number of legs of the given mode in an itinerary leg list. -/
def modeCount (m : String) : List TmapLeg → Nat
  | [] => 0
  | l :: ls => (if l.mode = m then 1 else 0) + modeCount m ls

/-- The `TransitStep` built from one itinerary leg. -/
def mkTransitStep (l : TmapLeg) : TransitStep :=
  { mode := l.mode
    fromName := l.startName.getD ""
    toName := l.endName.getD ""
    duration := jsOr l.sectionTime 0
    distance := l.distance
    route := l.route
    routeColor := l.routeColor
    service := l.service
    stationCount := l.passStopCount.getD 0 }

/-- The `steps` list of a transit leg's details. -/
def transitStepsOf (it : Itinerary) : List TransitStep :=
  (it.legs.getD []).map mkTransitStep

/-- The transit-only candidate built from the `idx`-th of the main transit
itineraries (`idx` is `allCandidates.length` at push time, which in the
transit-only loop is the number of previously pushed transit candidates). -/
def mkTransitOnlyCandidate (req : RouteRequest) (idx : Nat) (it : Itinerary) : RouteCandidate :=
  let totalTimeMin := jsCeil (it.totalTime / 60)
  let totalCostKrw := jsOr it.totalFare 0
  let totalWalkM := walkDistanceSum (it.legs.getD [])
  let busTransfers := modeCount "BUS" (it.legs.getD [])
  let subwayTransfers := modeCount "SUBWAY" (it.legs.getD [])
  let walkTimeMin := estimateWalkTimeMin totalWalkM subwayTransfers busTransfers
  { id := .transit (jsOr it.pathType (idx : ℚ))
    type := .transitOnly
    totalTimeMin := totalTimeMin
    totalCostKrw := totalCostKrw
    walkTimeMin := walkTimeMin
    hasTaxi := false
    legs := [{ type := .transit
               fromName := req.origin.name
               toName := req.destination.name
               durationMin := totalTimeMin
               costKrw := totalCostKrw
               details := .transitInfoFull totalWalkM busTransfers subwayTransfers it.pathType
                 (transitStepsOf it) }]
    slackMin := req.maxTimeMin - totalTimeMin
    isFeasible := decide (totalTimeMin ≤ req.maxTimeMin ∧ walkTimeMin ≤ req.maxWalkMin) }

/-- The transit-only stage: one candidate per itinerary of the first 5,
pushed unconditionally. -/
def transitOnlyCandidates (req : RouteRequest) (itins : List Itinerary) : List RouteCandidate :=
  ((itins.take 5).enum).map fun p => mkTransitOnlyCandidate req p.1 p.2

/-- The taxi-only stage: one candidate when the main Kakao directions call
yielded a summary with `duration` and `distance`, pushed unconditionally. -/
def taxiOnlyCandidates (req : RouteRequest) (kakaoMain : Option DirectionsSummary) :
    List RouteCandidate :=
  match kakaoMain with
  | none => []
  | some s =>
    let durationMin := jsCeil (s.duration / 60) + TAXI_PICKUP_BUFFER_MIN
    let taxiFare := jsOr s.taxiFare (jsCeil (4800 + s.distance / 1000 * 1000))
    let tollFare := jsOr s.tollFare 0
    let totalCost := taxiFare + tollFare
    [{ id := .taxiOnly
       type := .taxiOnly
       totalTimeMin := durationMin
       totalCostKrw := totalCost
       walkTimeMin := 0
       hasTaxi := true
       legs := [{ type := .taxi
                  fromName := req.origin.name
                  toName := req.destination.name
                  durationMin := durationMin
                  costKrw := totalCost
                  details := .taxiInfoFull s.distance s.duration taxiFare tollFare }]
       slackMin := req.maxTimeMin - durationMin
       isFeasible := decide (durationMin ≤ req.maxTimeMin) }]

/-- The taxi→transit candidate for one itinerary from a screened station near
the origin: it is produced only when both budgets hold (`none` otherwise). -/
def mkTaxiTransitCandidate (req : RouteRequest) (station : Station)
    (taxiDurationMin taxiCost taxiFare tollFare : ℚ) (it : Itinerary) :
    Option RouteCandidate :=
  let transitTimeMin := jsCeil (it.totalTime / 60)
  let transitCost := jsOr it.totalFare 0
  let totalWalkM := walkDistanceSum (it.legs.getD [])
  let busTransfers := modeCount "BUS" (it.legs.getD [])
  let subwayTransfers := modeCount "SUBWAY" (it.legs.getD [])
  let walkTimeMin := estimateWalkTimeMin totalWalkM subwayTransfers busTransfers
    + DROPOFF_TO_PLATFORM_BUFFER_MIN
  let totalTime := taxiDurationMin + transitTimeMin
  let totalCost := taxiCost + transitCost
  if totalTime ≤ req.maxTimeMin ∧ walkTimeMin ≤ req.maxWalkMin then
    some { id := .taxiTransit station.stationID it.pathType
           type := .taxiTransit
           totalTimeMin := totalTime
           totalCostKrw := totalCost
           walkTimeMin := walkTimeMin
           hasTaxi := true
           legs := [{ type := .taxi
                      fromName := req.origin.name
                      toName := station.stationName
                      durationMin := taxiDurationMin
                      costKrw := taxiCost
                      details := .taxiInfo taxiFare tollFare },
                    { type := .transit
                      fromName := station.stationName
                      toName := req.destination.name
                      durationMin := transitTimeMin
                      costKrw := transitCost
                      details := .transitInfo totalWalkM busTransfers subwayTransfers
                        (transitStepsOf it) }]
           slackMin := req.maxTimeMin - totalTime
           isFeasible := true }
  else none

/-- The transit→taxi candidate for one itinerary to a screened station near
the destination: it is produced only when both budgets hold. -/
def mkTransitTaxiCandidate (req : RouteRequest) (station : Station)
    (taxiDurationMin taxiCost taxiFare tollFare : ℚ) (it : Itinerary) :
    Option RouteCandidate :=
  let transitTimeMin := jsCeil (it.totalTime / 60)
  let transitCost := jsOr it.totalFare 0
  let totalWalkM := walkDistanceSum (it.legs.getD [])
  let busTransfers := modeCount "BUS" (it.legs.getD [])
  let subwayTransfers := modeCount "SUBWAY" (it.legs.getD [])
  let walkTimeMin := estimateWalkTimeMin totalWalkM subwayTransfers busTransfers
    + DROPOFF_TO_PLATFORM_BUFFER_MIN
  let totalTime := transitTimeMin + taxiDurationMin
  let totalCost := transitCost + taxiCost
  if totalTime ≤ req.maxTimeMin ∧ walkTimeMin ≤ req.maxWalkMin then
    some { id := .transitTaxi station.stationID it.pathType
           type := .transitTaxi
           totalTimeMin := totalTime
           totalCostKrw := totalCost
           walkTimeMin := walkTimeMin
           hasTaxi := true
           legs := [{ type := .transit
                      fromName := req.origin.name
                      toName := station.stationName
                      durationMin := transitTimeMin
                      costKrw := transitCost
                      details := .transitInfo totalWalkM busTransfers subwayTransfers
                        (transitStepsOf it) },
                    { type := .taxi
                      fromName := station.stationName
                      toName := req.destination.name
                      durationMin := taxiDurationMin
                      costKrw := taxiCost
                      details := .taxiInfo taxiFare tollFare }]
           slackMin := req.maxTimeMin - totalTime
           isFeasible := true }
  else none

/-- The taxi→transit candidates for one screened station near the origin:
skip the station when its precise directions call failed; otherwise one
candidate per itinerary (first 3) of the station→destination transit call
that satisfies both budgets. -/
def taxiTransitForStation (req : RouteRequest) (env : ProviderEnv) (station : Station) :
    List RouteCandidate :=
  match env.taxiToStation station with
  | none => []
  | some ts =>
    let taxiDurationMin := jsCeil (ts.duration / 60) + TAXI_PICKUP_BUFFER_MIN
    let taxiFare := jsOr ts.taxiFare (jsCeil (4800 + ts.distance / 1000 * 1000))
    let tollFare := jsOr ts.tollFare 0
    let taxiCost := taxiFare + tollFare
    match env.transitFromStation station with
    | none => []
    | some itins =>
      (itins.take 3).filterMap
        (mkTaxiTransitCandidate req station taxiDurationMin taxiCost taxiFare tollFare)

/-- The transit→taxi candidates for one screened station near the destination:
skip the station when the origin→station transit call yields no itineraries or
the station→destination directions call failed; otherwise one candidate per
itinerary (first 3) that satisfies both budgets. -/
def transitTaxiForStation (req : RouteRequest) (env : ProviderEnv) (station : Station) :
    List RouteCandidate :=
  match env.transitToStation station with
  | none => []
  | some itins =>
    if itins.isEmpty then []
    else
      match env.taxiFromStation station with
      | none => []
      | some ts =>
        let taxiDurationMin := jsCeil (ts.duration / 60) + TAXI_PICKUP_BUFFER_MIN
        let taxiFare := jsOr ts.taxiFare (jsCeil (4800 + ts.distance / 1000 * 1000))
        let tollFare := jsOr ts.tollFare 0
        let taxiCost := taxiFare + tollFare
        (itins.take 3).filterMap
          (mkTransitTaxiCandidate req station taxiDurationMin taxiCost taxiFare tollFare)

/-- The candidate accumulation of `findOptimalRoute`: the short-walk
short-circuit (distance below 700 m) produces a single walk-only candidate
without consulting any provider; otherwise the transit-only, taxi-only and
(when `taxiMaxSegments ≥ 1`) mixed stages run in order. -/
def generateCandidates (req : RouteRequest) (distanceM : ℚ) (env : ProviderEnv) :
    List RouteCandidate :=
  if distanceM < 700 then
    let walkMin := jsCeil (distanceM / WALK_SPEED_M_PER_MIN)
    [{ id := .walkOnly
       type := .walkOnly
       totalTimeMin := walkMin
       totalCostKrw := 0
       walkTimeMin := walkMin
       hasTaxi := false
       legs := [{ type := .walk
                  fromName := req.origin.name
                  toName := req.destination.name
                  durationMin := walkMin
                  costKrw := 0
                  details := .walkInfo distanceM }]
       slackMin := req.maxTimeMin - walkMin
       isFeasible := decide (walkMin ≤ req.maxWalkMin ∧ walkMin ≤ req.maxTimeMin) }]
  else
    let transitCands := transitOnlyCandidates req (env.tmapMain.getD [])
    let taxiCands := taxiOnlyCandidates req env.kakaoMain
    let mixed :=
      if 1 ≤ req.taxiMaxSegments then
        let topStationsO :=
          (screenWithFallback env.stationsNearO env.batchEtaO).take MAX_STATION_CANDIDATES
        let topStationsD :=
          (screenWithFallback env.stationsNearD env.batchEtaD).take MAX_STATION_CANDIDATES
        topStationsO.flatMap (taxiTransitForStation req env)
          ++ topStationsD.flatMap (transitTaxiForStation req env)
      else []
    transitCands ++ (taxiCands ++ mixed)

/-- The leg pass of `addArrivalTimes`: each leg's arrival time is the running
departure time plus its duration in milliseconds. -/
def attachLegArrivals (t : ℚ) : List RouteLeg → List RouteLeg
  | [] => []
  | l :: ls =>
    let t2 := t + l.durationMin * 60000
    { l with arrivalTime := some t2 } :: attachLegArrivals t2 ls

/-- `addArrivalTimes` from the source (as a pure candidate transformer; the
candidate's arrival time is its last leg's arrival time). -/
def addArrivalTimes (c : RouteCandidate) (departureTime : ℚ) : RouteCandidate :=
  let legs := attachLegArrivals departureTime c.legs
  { c with departureTime := some departureTime
           legs := legs
           arrivalTime := legs.getLast?.bind RouteLeg.arrivalTime }

/-- The order induced by the feasible-branch comparator
`(a, b) => a.totalCostKrw - b.totalCostKrw` with `totalTimeMin` tie-break. -/
def costTimeRel (a b : RouteCandidate) : Prop :=
  a.totalCostKrw < b.totalCostKrw
    ∨ (a.totalCostKrw = b.totalCostKrw ∧ a.totalTimeMin ≤ b.totalTimeMin)

instance : DecidableRel costTimeRel := fun a b => by
  unfold costTimeRel
  infer_instance

/-- The order induced by the fallback-branch comparator
`(a, b) => a.totalTimeMin - b.totalTimeMin`. -/
def timeRel (a b : RouteCandidate) : Prop :=
  a.totalTimeMin ≤ b.totalTimeMin

instance : DecidableRel timeRel := fun a b => by
  unfold timeRel
  infer_instance

instance : IsTotal RouteCandidate costTimeRel where
  total a b := by
    unfold costTimeRel
    rcases lt_trichotomy a.totalCostKrw b.totalCostKrw with h | h | h
    · exact Or.inl (Or.inl h)
    · rcases le_total a.totalTimeMin b.totalTimeMin with ht | ht
      · exact Or.inl (Or.inr ⟨h, ht⟩)
      · exact Or.inr (Or.inr ⟨h.symm, ht⟩)
    · exact Or.inr (Or.inl h)

instance : IsTrans RouteCandidate costTimeRel where
  trans a b c hab hbc := by
    unfold costTimeRel at *
    rcases hab with hab | ⟨hab, hab2⟩
    · rcases hbc with hbc | ⟨hbc, _⟩
      · exact Or.inl (hab.trans hbc)
      · exact Or.inl (hbc ▸ hab)
    · rcases hbc with hbc | ⟨hbc, hbc2⟩
      · exact Or.inl (hab ▸ hbc)
      · exact Or.inr ⟨hab.trans hbc, hab2.trans hbc2⟩

instance : IsTotal RouteCandidate timeRel where
  total a b := le_total a.totalTimeMin b.totalTimeMin

instance : IsTrans RouteCandidate timeRel where
  trans _ _ _ hab hbc := le_trans hab hbc

/-- The feasibility filter of `buildResponse`: keep feasible candidates and,
when `requireTaxi` is set, further keep only those with a taxi segment. -/
def feasibleFiltered (requireTaxi : Bool) (l : List RouteCandidate) : List RouteCandidate :=
  let f := l.filter fun c => c.isFeasible
  if requireTaxi then f.filter fun c => c.hasTaxi else f

/-- `buildResponse` from the source: attach arrival times, filter, and either
return the feasible candidates sorted cost-then-time (top 10) or fall back to
all candidates sorted by total time (top 5) with the fastest candidate's
metrics surfaced. -/
def buildResponse (allCandidates : List RouteCandidate) (maxTimeMin maxWalkMin : ℚ)
    (requireTaxi : Bool) (departureTime : ℚ) : RouteResponse :=
  let attached := allCandidates.map fun c => addArrivalTimes c departureTime
  let sortedFeasible := List.insertionSort costTimeRel (feasibleFiltered requireTaxi attached)
  if 0 < sortedFeasible.length then
    { success := true
      routes := sortedFeasible.take 10
      count := sortedFeasible.length
      noFeasibleRoute := false
      minPossibleTimeMin := none
      minPossibleWalkMin := none
      constraints := ⟨maxTimeMin, maxWalkMin⟩ }
  else
    let allSorted := List.insertionSort timeRel attached
    { success := true
      routes := allSorted.take 5
      count := allSorted.length
      noFeasibleRoute := true
      minPossibleTimeMin := allSorted.head?.map RouteCandidate.totalTimeMin
      minPossibleWalkMin := allSorted.head?.map RouteCandidate.walkTimeMin
      constraints := ⟨maxTimeMin, maxWalkMin⟩ }

/-- `findOptimalRoute` from the source: generate candidates and build the
response, with the departure time taken from the request or from the clock
(`now`) when absent. -/
def findOptimalRoute (req : RouteRequest) (distanceM : ℚ) (env : ProviderEnv) (now : ℚ) :
    RouteResponse :=
  buildResponse (generateCandidates req distanceM env) req.maxTimeMin req.maxWalkMin
    req.requireTaxi (req.departureTime.getD now)

/-- The attached candidate list of `buildResponse` as seen from
`findOptimalRoute`'s arguments. -/
def attachedCandidates (req : RouteRequest) (distanceM : ℚ) (env : ProviderEnv) (now : ℚ) :
    List RouteCandidate :=
  (generateCandidates req distanceM env).map fun c =>
    addArrivalTimes c (req.departureTime.getD now)

/-- The raw JSON body of a request, before validation: each required field may
be absent. -/
structure RawBody where
  origin : Option GeoPoint
  destination : Option GeoPoint
  maxTimeMin : Option ℚ
  maxWalkMin : Option ℚ
  requireTaxi : Option Bool
  taxiMaxSegments : Option ℚ
  departureTime : Option ℚ
deriving DecidableEq

/-- The outcome of the HTTP handler body (ignoring the CORS preflight and
500 paths). -/
inductive HandlerResult where
  | clientError (status : Nat) (message : String)
  | ok (resp : RouteResponse)
deriving DecidableEq

/-- The `Deno.serve` handler body: the validation
`!body.origin || !body.destination || !body.maxTimeMin || !body.maxWalkMin`
rejects with 400 before `findOptimalRoute` runs; an object field is falsy
exactly when absent, a numeric field when absent or `0`. -/
def serveHandler (body : RawBody) (distanceM : ℚ) (env : ProviderEnv) (now : ℚ) :
    HandlerResult :=
  match body.origin, body.destination, body.maxTimeMin, body.maxWalkMin with
  | some o, some d, some mt, some mw =>
    if mt ≠ 0 ∧ mw ≠ 0 then
      HandlerResult.ok (findOptimalRoute
        { origin := o
          destination := d
          maxTimeMin := mt
          maxWalkMin := mw
          requireTaxi := body.requireTaxi.getD false
          taxiMaxSegments := body.taxiMaxSegments.getD 1
          departureTime := body.departureTime } distanceM env now)
    else HandlerResult.clientError 400 "Missing required fields"
  | _, _, _, _ => HandlerResult.clientError 400 "Missing required fields"

/-- Whether consecutive legs chain: each leg's `to` equals the next leg's
`from`. -/
def chainedLegs : List RouteLeg → Bool
  | [] => true
  | [_] => true
  | a :: b :: rest => a.toName == b.fromName && chainedLegs (b :: rest)

/-- The per-candidate aggregate invariant of the spec: total time and cost are
the sums over the legs, the slack is the remaining time budget, and the legs
chain start-to-finish. -/
def candidateInv (maxTimeMin : ℚ) (c : RouteCandidate) : Prop :=
  c.totalTimeMin = (c.legs.map RouteLeg.durationMin).sum
    ∧ c.totalCostKrw = (c.legs.map RouteLeg.costKrw).sum
    ∧ c.slackMin = maxTimeMin - c.totalTimeMin
    ∧ chainedLegs c.legs = true

unseal Rat.add Rat.mul Rat.sub Rat.inv

/-! Shared concrete fixtures used by witnesses and counterexamples. -/

/-- A request with a 60-minute time budget and a 20-minute walk budget. -/
def demoReq : RouteRequest :=
  { origin := ⟨0, 0, "A"⟩
    destination := ⟨0, 0, "B"⟩
    maxTimeMin := 60
    maxWalkMin := 20
    requireTaxi := false
    taxiMaxSegments := 1
    departureTime := some 0 }

/-- A request whose 5-minute budgets make a 10-minute walk infeasible. -/
def demoReqTight : RouteRequest :=
  { demoReq with maxTimeMin := 5, maxWalkMin := 5 }

/-- An environment in which every provider call failed. -/
def demoEnvEmpty : ProviderEnv :=
  { tmapMain := none
    kakaoMain := none
    stationsNearO := []
    stationsNearD := []
    batchEtaO := none
    batchEtaD := none
    taxiToStation := fun _ => none
    transitFromStation := fun _ => none
    transitToStation := fun _ => none
    taxiFromStation := fun _ => none }

/-- A station near the origin. -/
def st1 : Station := ⟨"s1", "Station1", 1, 1, "station"⟩

/-- A 20-minute, 1500-won subway itinerary from `st1` to the destination. -/
def demoItin : Itinerary :=
  { totalTime := 1200
    totalFare := some 1500
    pathType := some 1
    legs := some [{ mode := "SUBWAY"
                    sectionTime := some 1200
                    distance := some 5000
                    startName := some "S"
                    endName := some "D"
                    route := none
                    routeColor := none
                    service := none
                    passStopCount := some 3 }] }

/-- An environment producing one taxi→transit candidate through `st1`
(taxi ETA 300 s screens into the expanded window). -/
def demoEnvMixed : ProviderEnv :=
  { demoEnvEmpty with
    stationsNearO := [st1]
    batchEtaO := some [some 420]
    taxiToStation := fun s => if s = st1 then some ⟨300, 2000, some 5000, none⟩ else none
    transitFromStation := fun s => if s = st1 then some [demoItin] else none }

/-- `demoEnvMixed` with the origin-side batch-ETA call failed. -/
def demoEnvNoEta : ProviderEnv :=
  { demoEnvMixed with batchEtaO := none }

/-- The walk-only candidate generated for `demoReq` at distance 650 m. -/
def demoWalkCandidate : RouteCandidate :=
  { id := .walkOnly
    type := .walkOnly
    totalTimeMin := 10
    totalCostKrw := 0
    walkTimeMin := 10
    hasTaxi := false
    legs := [{ type := .walk
               fromName := "A"
               toName := "B"
               durationMin := 10
               costKrw := 0
               details := .walkInfo 650 }]
    slackMin := 50
    isFeasible := true }

/-- The taxi→transit candidate generated for `demoReq` at distance 800 m in
`demoEnvMixed`. -/
def demoMixedCandidate : RouteCandidate :=
  { id := .taxiTransit "s1" (some 1)
    type := .taxiTransit
    totalTimeMin := 27
    totalCostKrw := 6500
    walkTimeMin := 4
    hasTaxi := true
    legs := [{ type := .taxi
               fromName := "A"
               toName := "Station1"
               durationMin := 7
               costKrw := 5000
               details := .taxiInfo 5000 0 },
             { type := .transit
               fromName := "Station1"
               toName := "B"
               durationMin := 20
               costKrw := 1500
               details := .transitInfo 0 0 1
                 [{ mode := "SUBWAY"
                    fromName := "S"
                    toName := "D"
                    duration := 1200
                    distance := some 5000
                    route := none
                    routeColor := none
                    service := none
                    stationCount := 3 }] }]
    slackMin := 33
    isFeasible := true }

/-- Five stations for the screening example. -/
def stA : Station := ⟨"a", "StA", 1, 1, "station"⟩

/-- Second screening-example station. -/
def stB : Station := ⟨"b", "StB", 2, 2, "station"⟩

/-- Third screening-example station. -/
def stC : Station := ⟨"c", "StC", 3, 3, "station"⟩

/-- Fourth screening-example station. -/
def stD : Station := ⟨"d", "StD", 4, 4, "station"⟩

/-- Fifth screening-example station. -/
def stE : Station := ⟨"e", "StE", 5, 5, "station"⟩

/-- The screening-example station list. -/
def c4Stations : List Station := [stA, stB, stC, stD, stE]

/-- ETAs of 5, 6, 7, 10 and 13 minutes, in seconds. -/
def c4Etas : List (Option ℚ) := [some 300, some 360, some 420, some 600, some 780]

/-- A directions summary whose provider fare is the falsy value `0`. -/
def demoSummaryZeroFare : DirectionsSummary :=
  { duration := 600, distance := 8000, taxiFare := some 0, tollFare := none }

/-- A directions summary with no provider fare over an 8000 m trip. -/
def demoSummaryNoFare : DirectionsSummary :=
  { duration := 600, distance := 8000, taxiFare := none, tollFare := none }

/-- A raw body whose `maxTimeMin` is present but `0`. -/
def demoBodyZeroTime : RawBody :=
  { origin := some ⟨0, 0, "A"⟩
    destination := some ⟨0, 0, "B"⟩
    maxTimeMin := some 0
    maxWalkMin := some 20
    requireTaxi := none
    taxiMaxSegments := none
    departureTime := none }

/-- The declarative description of one screening pass, phrased as the spec
phrases it: pair stations with ETA results positionally and keep exactly the
stations whose ETA, converted from seconds to minutes, lies within the closed
window. -/
def screenSpec (stations : List Station) (etas : List (Option ℚ)) (low high : ℚ) :
    List Station :=
  ((stations.zip etas).filter fun p =>
    p.2.any fun d => decide (low ≤ d / 60 ∧ d / 60 ≤ high)).map Prod.fst

/-! Helper lemmas. -/

theorem addArrivalTimes_isFeasible (c : RouteCandidate) (t : ℚ) :
    (addArrivalTimes c t).isFeasible = c.isFeasible := rfl

theorem addArrivalTimes_hasTaxi (c : RouteCandidate) (t : ℚ) :
    (addArrivalTimes c t).hasTaxi = c.hasTaxi := rfl

theorem addArrivalTimes_totalTimeMin (c : RouteCandidate) (t : ℚ) :
    (addArrivalTimes c t).totalTimeMin = c.totalTimeMin := rfl

theorem addArrivalTimes_walkTimeMin (c : RouteCandidate) (t : ℚ) :
    (addArrivalTimes c t).walkTimeMin = c.walkTimeMin := rfl

theorem addArrivalTimes_totalCostKrw (c : RouteCandidate) (t : ℚ) :
    (addArrivalTimes c t).totalCostKrw = c.totalCostKrw := rfl

/-- Attaching arrival times commutes with the feasibility filter. -/
theorem feasibleFiltered_map_attach (rt : Bool) (l : List RouteCandidate) (t : ℚ) :
    feasibleFiltered rt (l.map fun c => addArrivalTimes c t)
      = (feasibleFiltered rt l).map fun c => addArrivalTimes c t := by
  unfold feasibleFiltered
  cases rt <;>
    simp [List.filter_map, Function.comp_def, addArrivalTimes_isFeasible,
      addArrivalTimes_hasTaxi]

theorem mkTransitOnly_props (req : RouteRequest) (idx : Nat) (it : Itinerary) :
    candidateInv req.maxTimeMin (mkTransitOnlyCandidate req idx it)
      ∧ (mkTransitOnlyCandidate req idx it).type = CandType.transitOnly
      ∧ (mkTransitOnlyCandidate req idx it).isFeasible
          = decide ((mkTransitOnlyCandidate req idx it).totalTimeMin ≤ req.maxTimeMin
            ∧ (mkTransitOnlyCandidate req idx it).walkTimeMin ≤ req.maxWalkMin) := by
  refine ⟨?_, rfl, rfl⟩
  simp [candidateInv, mkTransitOnlyCandidate, chainedLegs]

theorem taxiOnly_props {req : RouteRequest} {k : Option DirectionsSummary}
    {c : RouteCandidate} (hc : c ∈ taxiOnlyCandidates req k) :
    candidateInv req.maxTimeMin c ∧ c.type = CandType.taxiOnly
      ∧ c.isFeasible = decide (c.totalTimeMin ≤ req.maxTimeMin) := by
  cases k with
  | none => simp [taxiOnlyCandidates] at hc
  | some s =>
    simp only [taxiOnlyCandidates, List.mem_singleton] at hc
    subst hc
    refine ⟨?_, rfl, rfl⟩
    simp [candidateInv, chainedLegs]

theorem mkTaxiTransit_props {req : RouteRequest} {station : Station}
    {dur cost fare toll : ℚ} {it : Itinerary} {c : RouteCandidate}
    (h : mkTaxiTransitCandidate req station dur cost fare toll it = some c) :
    candidateInv req.maxTimeMin c ∧ c.isFeasible = true
      ∧ c.type = CandType.taxiTransit
      ∧ c.totalTimeMin ≤ req.maxTimeMin ∧ c.walkTimeMin ≤ req.maxWalkMin := by
  simp only [mkTaxiTransitCandidate] at h
  split at h
  · rename_i hcond
    obtain rfl := Option.some.inj h
    refine ⟨?_, rfl, rfl, hcond.1, hcond.2⟩
    simp [candidateInv, chainedLegs]
  · exact absurd h (by simp)

theorem mkTransitTaxi_props {req : RouteRequest} {station : Station}
    {dur cost fare toll : ℚ} {it : Itinerary} {c : RouteCandidate}
    (h : mkTransitTaxiCandidate req station dur cost fare toll it = some c) :
    candidateInv req.maxTimeMin c ∧ c.isFeasible = true
      ∧ c.type = CandType.transitTaxi
      ∧ c.totalTimeMin ≤ req.maxTimeMin ∧ c.walkTimeMin ≤ req.maxWalkMin := by
  simp only [mkTransitTaxiCandidate] at h
  split at h
  · rename_i hcond
    obtain rfl := Option.some.inj h
    refine ⟨?_, rfl, rfl, hcond.1, hcond.2⟩
    simp [candidateInv, chainedLegs]
  · exact absurd h (by simp)

theorem mem_taxiTransitForStation {req : RouteRequest} {env : ProviderEnv}
    {station : Station} {c : RouteCandidate}
    (hc : c ∈ taxiTransitForStation req env station) :
    ∃ dur cost fare toll it,
      mkTaxiTransitCandidate req station dur cost fare toll it = some c := by
  rcases hts : env.taxiToStation station with _ | ts
  · simp [taxiTransitForStation, hts] at hc
  · rcases hti : env.transitFromStation station with _ | itins
    · simp [taxiTransitForStation, hts, hti] at hc
    · simp only [taxiTransitForStation, hts, hti, List.mem_filterMap] at hc
      obtain ⟨it, _, hmk⟩ := hc
      exact ⟨_, _, _, _, it, hmk⟩

theorem mem_transitTaxiForStation {req : RouteRequest} {env : ProviderEnv}
    {station : Station} {c : RouteCandidate}
    (hc : c ∈ transitTaxiForStation req env station) :
    ∃ dur cost fare toll it,
      mkTransitTaxiCandidate req station dur cost fare toll it = some c := by
  rcases hti : env.transitToStation station with _ | itins
  · simp [transitTaxiForStation, hti] at hc
  · by_cases he : itins.isEmpty
    · simp [transitTaxiForStation, hti, he] at hc
    · rcases hts : env.taxiFromStation station with _ | ts
      · simp [transitTaxiForStation, hti, he, hts] at hc
      · simp only [transitTaxiForStation, hti, hts] at hc
        rw [if_neg he] at hc
        simp only [List.mem_filterMap] at hc
        obtain ⟨it, _, hmk⟩ := hc
        exact ⟨_, _, _, _, it, hmk⟩

theorem mem_generateCandidates_far {req : RouteRequest} {distanceM : ℚ}
    {env : ProviderEnv} {c : RouteCandidate} (hd : ¬ distanceM < 700)
    (hc : c ∈ generateCandidates req distanceM env) :
    c ∈ transitOnlyCandidates req (env.tmapMain.getD [])
      ∨ c ∈ taxiOnlyCandidates req env.kakaoMain
      ∨ (∃ station, c ∈ taxiTransitForStation req env station)
      ∨ (∃ station, c ∈ transitTaxiForStation req env station) := by
  simp only [generateCandidates, if_neg hd, List.mem_append] at hc
  rcases hc with hc | hc | hc
  · exact Or.inl hc
  · exact Or.inr (Or.inl hc)
  · by_cases hseg : 1 ≤ req.taxiMaxSegments
    · rw [if_pos hseg] at hc
      rcases List.mem_append.mp hc with hc | hc
      · obtain ⟨st, _, hst⟩ := List.mem_flatMap.mp hc
        exact Or.inr (Or.inr (Or.inl ⟨st, hst⟩))
      · obtain ⟨st, _, hst⟩ := List.mem_flatMap.mp hc
        exact Or.inr (Or.inr (Or.inr ⟨st, hst⟩))
    · rw [if_neg hseg] at hc
      simp at hc

/-- C3: every RouteCandidate the generator produces (walk-only, transit-only,
taxi-only, taxi-transit, transit-taxi) satisfies: totalTimeMin equals the sum
of its legs' durationMin, totalCostKrw equals the sum of its legs' costKrw,
slackMin equals maxTimeMin minus totalTimeMin, and each leg's `to` equals the
next leg's `from`. -/
theorem generated_candidate_invariants (req : RouteRequest) (distanceM : ℚ)
    (env : ProviderEnv) (c : RouteCandidate)
    (hc : c ∈ generateCandidates req distanceM env) :
    candidateInv req.maxTimeMin c := by
  by_cases hd : distanceM < 700
  · simp only [generateCandidates, if_pos hd, List.mem_singleton] at hc
    subst hc
    simp [candidateInv, chainedLegs]
  · rcases mem_generateCandidates_far hd hc with h | h | ⟨st, h⟩ | ⟨st, h⟩
    · simp only [transitOnlyCandidates, List.mem_map] at h
      obtain ⟨p, _, rfl⟩ := h
      exact (mkTransitOnly_props req p.1 p.2).1
    · exact (taxiOnly_props h).1
    · obtain ⟨dur, cost, fare, toll, it, hmk⟩ := mem_taxiTransitForStation h
      exact (mkTaxiTransit_props hmk).1
    · obtain ⟨dur, cost, fare, toll, it, hmk⟩ := mem_transitTaxiForStation h
      exact (mkTransitTaxi_props hmk).1

/-- C3 witness: the walk-only candidate generated for `demoReq` at 650 m
satisfies the aggregate invariant. -/
theorem generated_candidate_invariants_witness :
    demoWalkCandidate ∈ generateCandidates demoReq 650 demoEnvEmpty
      ∧ candidateInv demoReq.maxTimeMin demoWalkCandidate :=
  ⟨by decide, generated_candidate_invariants demoReq 650 demoEnvEmpty demoWalkCandidate
    (by decide)⟩

/-- C6: transit-only and taxi-only candidates are added to the candidate set
whether or not they satisfy the budgets, with isFeasible recording the
outcome; a taxi-transit or transit-taxi candidate is added only when its total
time is at most maxTimeMin and its walk time is at most maxWalkMin, so every
mixed candidate in the set has isFeasible = true. -/
theorem mixed_candidates_feasible_only (req : RouteRequest) (distanceM : ℚ)
    (env : ProviderEnv) (hd : ¬ distanceM < 700) :
    List.Sublist (transitOnlyCandidates req (env.tmapMain.getD []))
        (generateCandidates req distanceM env)
      ∧ List.Sublist (taxiOnlyCandidates req env.kakaoMain)
          (generateCandidates req distanceM env)
      ∧ (∀ c ∈ transitOnlyCandidates req (env.tmapMain.getD []),
          c.isFeasible
            = decide (c.totalTimeMin ≤ req.maxTimeMin ∧ c.walkTimeMin ≤ req.maxWalkMin))
      ∧ (∀ c ∈ taxiOnlyCandidates req env.kakaoMain,
          c.isFeasible = decide (c.totalTimeMin ≤ req.maxTimeMin))
      ∧ (∀ c ∈ generateCandidates req distanceM env,
          (c.type = CandType.taxiTransit ∨ c.type = CandType.transitTaxi) →
          c.isFeasible = true ∧ c.totalTimeMin ≤ req.maxTimeMin
            ∧ c.walkTimeMin ≤ req.maxWalkMin) := by
  have hgen : generateCandidates req distanceM env
      = transitOnlyCandidates req (env.tmapMain.getD [])
        ++ (taxiOnlyCandidates req env.kakaoMain
          ++ (if 1 ≤ req.taxiMaxSegments then
                ((screenWithFallback env.stationsNearO env.batchEtaO).take
                    MAX_STATION_CANDIDATES).flatMap (taxiTransitForStation req env)
                  ++ ((screenWithFallback env.stationsNearD env.batchEtaD).take
                      MAX_STATION_CANDIDATES).flatMap (transitTaxiForStation req env)
              else [])) := by
    simp only [generateCandidates, if_neg hd]
  refine ⟨?_, ?_, ?_, ?_, ?_⟩
  · rw [hgen]
    exact List.sublist_append_left _ _
  · rw [hgen]
    exact (List.sublist_append_left _ _).trans (List.sublist_append_right _ _)
  · intro c hc
    simp only [transitOnlyCandidates, List.mem_map] at hc
    obtain ⟨p, _, rfl⟩ := hc
    exact (mkTransitOnly_props req p.1 p.2).2.2
  · intro c hc
    exact (taxiOnly_props hc).2.2
  · intro c hc hty
    rcases mem_generateCandidates_far hd hc with h | h | ⟨st, h⟩ | ⟨st, h⟩
    · simp only [transitOnlyCandidates, List.mem_map] at h
      obtain ⟨p, _, rfl⟩ := h
      have := (mkTransitOnly_props req p.1 p.2).2.1
      simp [this] at hty
    · have := (taxiOnly_props h).2.1
      simp [this] at hty
    · obtain ⟨dur, cost, fare, toll, it, hmk⟩ := mem_taxiTransitForStation h
      have hp := mkTaxiTransit_props hmk
      exact ⟨hp.2.1, hp.2.2.2.1, hp.2.2.2.2⟩
    · obtain ⟨dur, cost, fare, toll, it, hmk⟩ := mem_transitTaxiForStation h
      have hp := mkTransitTaxi_props hmk
      exact ⟨hp.2.1, hp.2.2.2.1, hp.2.2.2.2⟩

/-- C6 witness: in `demoEnvMixed` at 800 m the generated taxi→transit
candidate is feasible and within both budgets. -/
theorem mixed_candidates_feasible_only_witness :
    demoMixedCandidate ∈ generateCandidates demoReq 800 demoEnvMixed
      ∧ demoMixedCandidate.isFeasible = true
      ∧ demoMixedCandidate.totalTimeMin ≤ demoReq.maxTimeMin
      ∧ demoMixedCandidate.walkTimeMin ≤ demoReq.maxWalkMin :=
  ⟨by decide,
   (mixed_candidates_feasible_only demoReq 800 demoEnvMixed (by decide)).2.2.2.2
     demoMixedCandidate (by decide) (Or.inl rfl)⟩

/-- C5: for every request whose origin–destination distance is below 700 m,
the generator emits exactly one candidate — walk-only, durationMin =
ceil(distance/70), cost 0, feasible iff durationMin ≤ maxWalkMin and
durationMin ≤ maxTimeMin — and the result does not depend on the provider
environment at all (no provider call is consulted). -/
theorem short_walk_short_circuit (req : RouteRequest) (distanceM : ℚ) (env : ProviderEnv)
    (h : distanceM < 700) :
    generateCandidates req distanceM env =
      [{ id := .walkOnly
         type := .walkOnly
         totalTimeMin := jsCeil (distanceM / 70)
         totalCostKrw := 0
         walkTimeMin := jsCeil (distanceM / 70)
         hasTaxi := false
         legs := [{ type := .walk
                    fromName := req.origin.name
                    toName := req.destination.name
                    durationMin := jsCeil (distanceM / 70)
                    costKrw := 0
                    details := .walkInfo distanceM }]
         slackMin := req.maxTimeMin - jsCeil (distanceM / 70)
         isFeasible := decide (jsCeil (distanceM / 70) ≤ req.maxWalkMin
           ∧ jsCeil (distanceM / 70) ≤ req.maxTimeMin) }] := by
  simp [generateCandidates, if_pos h, WALK_SPEED_M_PER_MIN]

/-- C5 witness: at 650 m the single candidate is the 10-minute walk,
whatever the provider environment holds. -/
theorem short_walk_short_circuit_witness :
    (650 : ℚ) < 700
      ∧ generateCandidates demoReq 650 demoEnvEmpty = [demoWalkCandidate]
      ∧ generateCandidates demoReq 650 demoEnvMixed = [demoWalkCandidate] :=
  ⟨by decide,
   by rw [short_walk_short_circuit demoReq 650 demoEnvEmpty (by decide)]; decide,
   by rw [short_walk_short_circuit demoReq 650 demoEnvMixed (by decide)]; decide⟩

/-- C4: `screenStationsByEta` pairs stations with ETA results positionally
and (for a window with positive lower bound, which both generator windows
have) keeps exactly the stations whose ETA duration in minutes lies within
the closed window; the generator screens with [6,9] and, when fewer than 5
stations survive, re-screens the same original list with [5,12], the expanded
result replacing the primary one; on ETAs of [5,6,7,10,13] minutes the
primary window keeps the ETA-6 and ETA-7 stations and the fallback yields the
ETA-5, 6, 7 and 10 stations. -/
theorem station_screening_spec :
    (∀ (stations : List Station) (etas : List (Option ℚ)) (low high : ℚ), 0 < low →
        screenStationsByEta stations etas (low, high) = screenSpec stations etas low high)
      ∧ (∀ (stations : List Station) (etas : List (Option ℚ)),
          (screenStationsByEta stations etas TAXI_ROI_WINDOW_PRIMARY).length < 5 →
          screenWithFallback stations (some etas)
            = screenStationsByEta stations etas TAXI_ROI_WINDOW_EXPAND)
      ∧ (∀ (stations : List Station) (etas : List (Option ℚ)),
          ¬ (screenStationsByEta stations etas TAXI_ROI_WINDOW_PRIMARY).length < 5 →
          screenWithFallback stations (some etas)
            = screenStationsByEta stations etas TAXI_ROI_WINDOW_PRIMARY)
      ∧ screenStationsByEta c4Stations c4Etas TAXI_ROI_WINDOW_PRIMARY = [stB, stC]
      ∧ screenWithFallback c4Stations (some c4Etas) = [stA, stB, stC, stD] := by
  refine ⟨?_, ?_, ?_, by decide, by decide⟩
  · intro stations etas low high hlow
    induction stations generalizing etas with
    | nil => simp [screenStationsByEta, screenSpec]
    | cons s ss ih =>
      cases etas with
      | nil => simp [screenStationsByEta, screenSpec]
      | cons e es =>
        cases e with
        | none => simpa [screenStationsByEta, screenSpec] using ih es
        | some d =>
          by_cases hz : d = 0
          · subst hz
            have h1 : ¬ low ≤ (0 : ℚ) := hlow.not_le
            simpa [screenStationsByEta, screenSpec, zero_div, h1] using ih es
          · by_cases hw : low ≤ d / 60 ∧ d / 60 ≤ high
            · simpa [screenStationsByEta, screenSpec, hz, hw] using ih es
            · simpa [screenStationsByEta, screenSpec, hz, hw] using ih es
  · intro stations etas hlt
    simp [screenWithFallback, if_pos hlt]
  · intro stations etas hge
    simp [screenWithFallback, if_neg hge]

/-- C4 witness: the general characterization and the fallback rule applied to
the example stations. -/
theorem station_screening_spec_witness :
    screenStationsByEta c4Stations c4Etas (6, 9) = screenSpec c4Stations c4Etas 6 9
      ∧ screenWithFallback c4Stations (some c4Etas)
          = screenStationsByEta c4Stations c4Etas TAXI_ROI_WINDOW_EXPAND :=
  ⟨station_screening_spec.1 c4Stations c4Etas 6 9 (by norm_num),
   station_screening_spec.2.1 c4Stations c4Etas (by decide)⟩

/-- C10: when the batch-ETA result for a side is null or carries no routes
array (`none`), station screening is skipped for that side and
mixed-candidate generation proceeds over the first 15 unscreened nearby
stations. -/
theorem batch_eta_failure_unscreened (req : RouteRequest) (distanceM : ℚ)
    (env : ProviderEnv) (hd : ¬ distanceM < 700) (hseg : 1 ≤ req.taxiMaxSegments) :
    (env.batchEtaO = none →
      generateCandidates req distanceM env
        = transitOnlyCandidates req (env.tmapMain.getD [])
          ++ (taxiOnlyCandidates req env.kakaoMain
            ++ ((env.stationsNearO.take MAX_STATION_CANDIDATES).flatMap
                  (taxiTransitForStation req env)
              ++ ((screenWithFallback env.stationsNearD env.batchEtaD).take
                    MAX_STATION_CANDIDATES).flatMap (transitTaxiForStation req env))))
      ∧ (env.batchEtaD = none →
        generateCandidates req distanceM env
          = transitOnlyCandidates req (env.tmapMain.getD [])
            ++ (taxiOnlyCandidates req env.kakaoMain
              ++ (((screenWithFallback env.stationsNearO env.batchEtaO).take
                    MAX_STATION_CANDIDATES).flatMap (taxiTransitForStation req env)
                ++ (env.stationsNearD.take MAX_STATION_CANDIDATES).flatMap
                    (transitTaxiForStation req env)))) := by
  constructor <;> intro h <;>
    simp [generateCandidates, if_neg hd, if_pos hseg, screenWithFallback, h]

/-- C10 witness: with the origin-side batch ETA failed, generation proceeds
over the unscreened station list and still emits the mixed candidate. -/
theorem batch_eta_failure_unscreened_witness :
    demoEnvNoEta.batchEtaO = none
      ∧ generateCandidates demoReq 800 demoEnvNoEta
          = transitOnlyCandidates demoReq (demoEnvNoEta.tmapMain.getD [])
            ++ (taxiOnlyCandidates demoReq demoEnvNoEta.kakaoMain
              ++ ((demoEnvNoEta.stationsNearO.take MAX_STATION_CANDIDATES).flatMap
                    (taxiTransitForStation demoReq demoEnvNoEta)
                ++ ((screenWithFallback demoEnvNoEta.stationsNearD
                      demoEnvNoEta.batchEtaD).take MAX_STATION_CANDIDATES).flatMap
                    (transitTaxiForStation demoReq demoEnvNoEta)))
      ∧ (generateCandidates demoReq 800 demoEnvNoEta).map RouteCandidate.type
          = [CandType.taxiTransit] :=
  ⟨rfl,
   (batch_eta_failure_unscreened demoReq 800 demoEnvNoEta (by decide) (by decide)).1 rfl,
   by decide⟩

/-- C7 counterexample: when the provider returns the falsy fare `0` for an
8000 m trip, the taxi-only candidate is fared by the fallback formula (12800)
rather than by the returned provider fare (which with zero toll would give a
total cost of 0) — so the fallback is not used only when the provider returns
no fare. -/
theorem taxi_only_fare_counterexample :
    demoSummaryZeroFare.taxiFare = some 0
      ∧ (taxiOnlyCandidates demoReq (some demoSummaryZeroFare)).map
          RouteCandidate.totalCostKrw = [12800]
      ∧ (taxiOnlyCandidates demoReq (some demoSummaryZeroFare)).map
          RouteCandidate.totalCostKrw ≠ [0] :=
  ⟨rfl, by decide, by decide⟩

/-- C7 (amended): the taxi-only candidate's time is ceil(durationSec/60) plus
the 2-minute pickup buffer, its walk time is 0 and it is feasible iff its
time ≤ maxTimeMin; its fare is the provider fare when that fare is present
and non-zero, and the fallback formula ceil(4800 + (distanceMeters/1000)×1000)
when the provider returns no fare or the falsy fare 0; an 8000 m trip without
a provider fare is fared at 12800. -/
theorem taxi_only_time_and_fare (req : RouteRequest) (s : DirectionsSummary) :
    (taxiOnlyCandidates req (some s)).map RouteCandidate.totalTimeMin
        = [jsCeil (s.duration / 60) + TAXI_PICKUP_BUFFER_MIN]
      ∧ (taxiOnlyCandidates req (some s)).map RouteCandidate.walkTimeMin = [0]
      ∧ (taxiOnlyCandidates req (some s)).map RouteCandidate.isFeasible
          = [decide (jsCeil (s.duration / 60) + TAXI_PICKUP_BUFFER_MIN ≤ req.maxTimeMin)]
      ∧ (∀ f, s.taxiFare = some f → f ≠ 0 →
          (taxiOnlyCandidates req (some s)).map RouteCandidate.totalCostKrw
            = [f + jsOr s.tollFare 0])
      ∧ ((s.taxiFare = none ∨ s.taxiFare = some 0) →
          (taxiOnlyCandidates req (some s)).map RouteCandidate.totalCostKrw
            = [jsCeil (4800 + s.distance / 1000 * 1000) + jsOr s.tollFare 0])
      ∧ (s.distance = 8000 → s.taxiFare = none → s.tollFare = none →
          (taxiOnlyCandidates req (some s)).map RouteCandidate.totalCostKrw = [12800]) := by
  refine ⟨rfl, rfl, rfl, ?_, ?_, ?_⟩
  · intro f hf hf0
    simp [taxiOnlyCandidates, jsOr, hf, hf0]
  · rintro (hf | hf) <;> simp [taxiOnlyCandidates, jsOr, hf]
  · intro hdist hf ht
    have : (4800 : ℚ) + (8000 : ℚ) / 1000 * 1000 = 12800 := by norm_num
    simp [taxiOnlyCandidates, jsOr, hf, ht, hdist, jsCeil, this]

/-- C7 witness: the 8000 m trip without a provider fare at 600 s duration. -/
theorem taxi_only_time_and_fare_witness :
    (taxiOnlyCandidates demoReq (some demoSummaryNoFare)).map
        RouteCandidate.totalTimeMin = [12]
      ∧ (taxiOnlyCandidates demoReq (some demoSummaryNoFare)).map
          RouteCandidate.totalCostKrw = [12800] := by
  have h := taxi_only_time_and_fare demoReq demoSummaryNoFare
  refine ⟨?_, h.2.2.2.2.2 rfl rfl rfl⟩
  rw [h.1]
  decide

/-- C8: candidate generation is deterministic — for a request with a fixed
departure time and a fixed assignment of provider responses, the result does
not depend on the clock, so two runs produce identical responses (in
particular identical sorted candidate lists). -/
theorem generator_deterministic (req : RouteRequest) (distanceM : ℚ) (env : ProviderEnv)
    (t now1 now2 : ℚ) (h : req.departureTime = some t) :
    findOptimalRoute req distanceM env now1 = findOptimalRoute req distanceM env now2 := by
  unfold findOptimalRoute
  rw [h]
  rfl

/-- C8 witness: `demoReq` carries a departure time, so runs under different
clocks coincide. -/
theorem generator_deterministic_witness :
    demoReq.departureTime = some 0
      ∧ findOptimalRoute demoReq 650 demoEnvEmpty 1 = findOptimalRoute demoReq 650 demoEnvEmpty 2 :=
  ⟨rfl, generator_deterministic demoReq 650 demoEnvEmpty 0 1 2 rfl⟩

/-- C9: a request whose maxTimeMin or maxWalkMin is present but equal to the
falsy value 0 is rejected with the 400 "Missing required fields" client error,
for every provider environment (so before any provider call), because the
validation tests the fields for falsiness rather than presence. -/
theorem falsy_budget_rejected (body : RawBody) (distanceM : ℚ) (env : ProviderEnv)
    (now : ℚ) (h : body.maxTimeMin = some 0 ∨ body.maxWalkMin = some 0) :
    serveHandler body distanceM env now
      = HandlerResult.clientError 400 "Missing required fields" := by
  obtain ⟨o, d, mt, mw, rt, ts, dep⟩ := body
  cases o <;> cases d <;> cases mt <;> cases mw <;> simp_all [serveHandler]
  tauto

/-- C9 witness: a fully populated body with `maxTimeMin = 0` is rejected. -/
theorem falsy_budget_rejected_witness :
    demoBodyZeroTime.maxTimeMin = some 0
      ∧ serveHandler demoBodyZeroTime 650 demoEnvEmpty 0
          = HandlerResult.clientError 400 "Missing required fields" :=
  ⟨rfl, falsy_budget_rejected demoBodyZeroTime 650 demoEnvEmpty 0 (Or.inl rfl)⟩

/-- The feasible branch of `buildResponse`, as an explicit record. -/
theorem buildResponse_pos (cands : List RouteCandidate) (mt mw : ℚ) (rt : Bool) (dep : ℚ)
    (h : 0 < (List.insertionSort costTimeRel
        (feasibleFiltered rt (cands.map fun c => addArrivalTimes c dep))).length) :
    buildResponse cands mt mw rt dep =
      { success := true
        routes := (List.insertionSort costTimeRel
            (feasibleFiltered rt (cands.map fun c => addArrivalTimes c dep))).take 10
        count := (List.insertionSort costTimeRel
            (feasibleFiltered rt (cands.map fun c => addArrivalTimes c dep))).length
        noFeasibleRoute := false
        minPossibleTimeMin := none
        minPossibleWalkMin := none
        constraints := ⟨mt, mw⟩ } := by
  simp only [buildResponse]
  rw [if_pos h]

/-- The fallback branch of `buildResponse`, as an explicit record. -/
theorem buildResponse_neg (cands : List RouteCandidate) (mt mw : ℚ) (rt : Bool) (dep : ℚ)
    (h : ¬ 0 < (List.insertionSort costTimeRel
        (feasibleFiltered rt (cands.map fun c => addArrivalTimes c dep))).length) :
    buildResponse cands mt mw rt dep =
      { success := true
        routes := (List.insertionSort timeRel
            (cands.map fun c => addArrivalTimes c dep)).take 5
        count := (List.insertionSort timeRel (cands.map fun c => addArrivalTimes c dep)).length
        noFeasibleRoute := true
        minPossibleTimeMin := (List.insertionSort timeRel
            (cands.map fun c => addArrivalTimes c dep)).head?.map RouteCandidate.totalTimeMin
        minPossibleWalkMin := (List.insertionSort timeRel
            (cands.map fun c => addArrivalTimes c dep)).head?.map RouteCandidate.walkTimeMin
        constraints := ⟨mt, mw⟩ } := by
  simp only [buildResponse]
  rw [if_neg h]

/-- C1: when at least one feasible candidate remains after feasibility
filtering (and, if requireTaxi is set, after further filtering to hasTaxi),
the response has noFeasibleRoute = false and its routes are exactly the
remaining candidates sorted by totalCostKrw ascending with totalTimeMin as
tie-break (a sorted permutation of the filtered set), truncated to the first
10. -/
theorem feasible_selection_sorted (req : RouteRequest) (distanceM : ℚ) (env : ProviderEnv)
    (now : ℚ)
    (h : feasibleFiltered req.requireTaxi (generateCandidates req distanceM env) ≠ []) :
    (findOptimalRoute req distanceM env now).noFeasibleRoute = false
      ∧ (findOptimalRoute req distanceM env now).routes
          = (List.insertionSort costTimeRel
              (feasibleFiltered req.requireTaxi
                (attachedCandidates req distanceM env now))).take 10
      ∧ List.Perm
          (List.insertionSort costTimeRel
            (feasibleFiltered req.requireTaxi (attachedCandidates req distanceM env now)))
          (feasibleFiltered req.requireTaxi (attachedCandidates req distanceM env now))
      ∧ List.Sorted costTimeRel
          (List.insertionSort costTimeRel
            (feasibleFiltered req.requireTaxi (attachedCandidates req distanceM env now))) := by
  simp only [attachedCandidates]
  have hne : feasibleFiltered req.requireTaxi
      ((generateCandidates req distanceM env).map fun c =>
        addArrivalTimes c (req.departureTime.getD now)) ≠ [] := by
    rw [feasibleFiltered_map_attach]
    simpa using h
  have hlen : 0 < (List.insertionSort costTimeRel
      (feasibleFiltered req.requireTaxi
        ((generateCandidates req distanceM env).map fun c =>
          addArrivalTimes c (req.departureTime.getD now)))).length := by
    rw [List.length_insertionSort]
    exact List.length_pos.mpr hne
  have hfo : findOptimalRoute req distanceM env now = _ :=
    buildResponse_pos (generateCandidates req distanceM env) req.maxTimeMin req.maxWalkMin
      req.requireTaxi (req.departureTime.getD now) hlen
  rw [hfo]
  exact ⟨rfl, rfl, List.perm_insertionSort _ _, List.sorted_insertionSort _ _⟩

/-- C1 witness: the 650 m walk request has a feasible candidate and the
response exposes it with noFeasibleRoute = false. -/
theorem feasible_selection_sorted_witness :
    feasibleFiltered demoReq.requireTaxi (generateCandidates demoReq 650 demoEnvEmpty) ≠ []
      ∧ (findOptimalRoute demoReq 650 demoEnvEmpty 0).noFeasibleRoute = false
      ∧ (findOptimalRoute demoReq 650 demoEnvEmpty 0).routes
          = (List.insertionSort costTimeRel
              (feasibleFiltered demoReq.requireTaxi
                (attachedCandidates demoReq 650 demoEnvEmpty 0))).take 10 := by
  have h := feasible_selection_sorted demoReq 650 demoEnvEmpty 0 (by decide)
  exact ⟨by decide, h.1, h.2.1⟩

/-- C2: when no feasible candidate remains after filtering, the response has
noFeasibleRoute = true, its routes are all generated candidates sorted by
totalTimeMin ascending truncated to the first 5, minPossibleTimeMin is the
minimum totalTimeMin over all generated candidates and minPossibleWalkMin is
that fastest candidate's walkTimeMin; whenever at least one candidate was
generated, routes is non-empty. -/
theorem fallback_response_spec (req : RouteRequest) (distanceM : ℚ) (env : ProviderEnv)
    (now : ℚ)
    (h : feasibleFiltered req.requireTaxi (generateCandidates req distanceM env) = []) :
    (findOptimalRoute req distanceM env now).noFeasibleRoute = true
      ∧ (findOptimalRoute req distanceM env now).routes
          = (List.insertionSort timeRel (attachedCandidates req distanceM env now)).take 5
      ∧ List.Perm (List.insertionSort timeRel (attachedCandidates req distanceM env now))
          (attachedCandidates req distanceM env now)
      ∧ List.Sorted timeRel
          (List.insertionSort timeRel (attachedCandidates req distanceM env now))
      ∧ (generateCandidates req distanceM env ≠ [] →
          (findOptimalRoute req distanceM env now).routes ≠ []
            ∧ ∃ c, c ∈ generateCandidates req distanceM env
                ∧ (∀ c2 ∈ generateCandidates req distanceM env,
                    c.totalTimeMin ≤ c2.totalTimeMin)
                ∧ (findOptimalRoute req distanceM env now).minPossibleTimeMin
                    = some c.totalTimeMin
                ∧ (findOptimalRoute req distanceM env now).minPossibleWalkMin
                    = some c.walkTimeMin) := by
  simp only [attachedCandidates]
  have hattach : feasibleFiltered req.requireTaxi
      ((generateCandidates req distanceM env).map fun c =>
        addArrivalTimes c (req.departureTime.getD now)) = [] := by
    rw [feasibleFiltered_map_attach, h]
    rfl
  have hnot : ¬ 0 < (List.insertionSort costTimeRel
      (feasibleFiltered req.requireTaxi
        ((generateCandidates req distanceM env).map fun c =>
          addArrivalTimes c (req.departureTime.getD now)))).length := by
    rw [List.length_insertionSort, hattach]
    simp
  have hfo : findOptimalRoute req distanceM env now = _ :=
    buildResponse_neg (generateCandidates req distanceM env) req.maxTimeMin req.maxWalkMin
      req.requireTaxi (req.departureTime.getD now) hnot
  rw [hfo]
  refine ⟨rfl, rfl, List.perm_insertionSort _ _, List.sorted_insertionSort _ _, ?_⟩
  intro hgen
  have hA : (generateCandidates req distanceM env).map
      (fun c => addArrivalTimes c (req.departureTime.getD now)) ≠ [] := by
    simpa using hgen
  have hSne : List.insertionSort timeRel
      ((generateCandidates req distanceM env).map fun c =>
        addArrivalTimes c (req.departureTime.getD now)) ≠ [] := by
    intro hS
    apply hA
    have := List.length_insertionSort timeRel
      ((generateCandidates req distanceM env).map fun c =>
        addArrivalTimes c (req.departureTime.getD now))
    rw [hS] at this
    exact List.eq_nil_of_length_eq_zero this.symm
  obtain ⟨c0, rest, hcons⟩ := List.exists_cons_of_ne_nil hSne
  have hc0S : c0 ∈ List.insertionSort timeRel
      ((generateCandidates req distanceM env).map fun c =>
        addArrivalTimes c (req.departureTime.getD now)) := by
    rw [hcons]
    exact List.mem_cons_self _ _
  have hc0A := (List.perm_insertionSort timeRel
    ((generateCandidates req distanceM env).map fun c =>
      addArrivalTimes c (req.departureTime.getD now))).mem_iff.mp hc0S
  obtain ⟨cg, hcg, hfc⟩ := List.mem_map.mp hc0A
  have hsorted := List.sorted_insertionSort timeRel
    ((generateCandidates req distanceM env).map fun c =>
      addArrivalTimes c (req.departureTime.getD now))
  have hmin : ∀ x ∈ List.insertionSort timeRel
      ((generateCandidates req distanceM env).map fun c =>
        addArrivalTimes c (req.departureTime.getD now)),
      c0.totalTimeMin ≤ x.totalTimeMin := by
    rw [hcons] at hsorted ⊢
    intro x hx
    rcases List.mem_cons.mp hx with hx | hx
    · rw [hx]
    · exact List.rel_of_sorted_cons hsorted x hx
  have hc0time : c0.totalTimeMin = cg.totalTimeMin := by
    rw [← hfc]
    exact addArrivalTimes_totalTimeMin cg _
  have hc0walk : c0.walkTimeMin = cg.walkTimeMin := by
    rw [← hfc]
    exact addArrivalTimes_walkTimeMin cg _
  constructor
  · rw [hcons]
    simp
  · refine ⟨cg, hcg, ?_, ?_, ?_⟩
    · intro c2 hc2
      have hx : addArrivalTimes c2 (req.departureTime.getD now) ∈
          List.insertionSort timeRel
            ((generateCandidates req distanceM env).map fun c =>
              addArrivalTimes c (req.departureTime.getD now)) := by
        rw [(List.perm_insertionSort timeRel _).mem_iff]
        exact List.mem_map.mpr ⟨c2, hc2, rfl⟩
      have := hmin _ hx
      rw [addArrivalTimes_totalTimeMin] at this
      rw [← hc0time]
      exact this
    · rw [hcons]
      simp [hc0time]
    · rw [hcons]
      simp [hc0walk]

/-- C2 witness: the tight-budget walk request yields the fallback response
whose hint metrics come from the single 10-minute candidate. -/
theorem fallback_response_spec_witness :
    feasibleFiltered demoReqTight.requireTaxi (generateCandidates demoReqTight 650 demoEnvEmpty)
        = []
      ∧ (findOptimalRoute demoReqTight 650 demoEnvEmpty 0).noFeasibleRoute = true
      ∧ (findOptimalRoute demoReqTight 650 demoEnvEmpty 0).minPossibleTimeMin = some 10
      ∧ (findOptimalRoute demoReqTight 650 demoEnvEmpty 0).minPossibleWalkMin = some 10
      ∧ (findOptimalRoute demoReqTight 650 demoEnvEmpty 0).routes ≠ [] := by
  have h := fallback_response_spec demoReqTight 650 demoEnvEmpty 0 (by decide)
  exact ⟨by decide, h.1, by decide, by decide, (h.2.2.2.2 (by decide)).1⟩

end BeforeYouTake
